import Mathlib

/-!
Verification of the MoodFlix recommendation core against its specification.

The Python source under `backend/` is shallowly embedded: dictionaries become
association lists (`List (key × value)`), floats become `ℚ`, upstream TMDb /
emotion-analysis calls become function parameters (oracles), and each method of
`EnhancedRecommendationEngine` / `MovieRecommendationEngine` becomes a Lean
definition with the same name.  Unicode-sensitive Python primitives
(`str.lower`, `\w`, `\d`, `\s`) are embedded by their ASCII behaviour plus the
concrete non-ASCII characters appearing in the source tables; every concrete
input evaluated below is within that fragment.
-/

namespace MoodFlix

/-- `MovieData` dataclass from `tmdb_client.py` (fields consumed by the
recommendation engine; numeric fields are floats/ints in the source, embedded
as `ℚ` since they are only used in comparisons and division). -/
structure MovieData where
  id : ℤ
  title : String
  original_title : String
  overview : String
  release_date : String
  genres : List String
  vote_average : ℚ
  vote_count : ℚ
  popularity : ℚ
  runtime : Option ℤ
deriving DecidableEq, Repr

/-- A Python `dict` with string keys and numeric values, as an insertion-order
association list. -/
abbrev MoodDict := List (String × ℚ)

/-- `d.get(k, 0)` on a Python dict: value of the entry with key `k`
(dict keys are unique, so the first entry), default 0. -/
def dictGet : MoodDict → String → ℚ
  | [], _ => 0
  | p :: rest, k => if p.1 == k then p.2 else dictGet rest k

/-- `d[k] = v` on a Python dict: overwrite the existing key in place,
otherwise append at the end (insertion order). -/
def dictSet : MoodDict → String → ℚ → MoodDict
  | [], k, v => [(k, v)]
  | p :: rest, k, v => if p.1 == k then (k, v) :: rest else p :: dictSet rest k v

/-- `k in d` on a Python dict. -/
def dictHasKey (d : MoodDict) (k : String) : Bool :=
  (d.find? (fun p => p.1 == k)).isSome

/-- Lookup in a table of dicts (`table[k]` guarded by `k in table`). -/
def tableGet (t : List (String × MoodDict)) (k : String) : Option MoodDict :=
  (t.find? (fun p => p.1 == k)).map Prod.snd

/-- `self.genre_mood_mapping` (enhanced_recommendation_engine.py lines 38-58). -/
def genre_mood_mapping : List (String × MoodDict) :=
  [ ("Action", [("action", 9/10), ("intense", 8/10), ("energetic", 7/10), ("adventure", 6/10)])
  , ("Adventure", [("adventure", 9/10), ("energetic", 7/10), ("uplifting", 6/10), ("feel-good", 5/10)])
  , ("Animation", [("feel-good", 8/10), ("uplifting", 7/10), ("heartwarming", 6/10), ("comedy", 5/10)])
  , ("Comedy", [("comedy", 9/10), ("feel-good", 8/10), ("uplifting", 7/10), ("heartwarming", 6/10)])
  , ("Crime", [("intense", 8/10), ("thriller", 7/10), ("drama", 6/10), ("action", 5/10)])
  , ("Documentary", [("educational", 9/10), ("thoughtful", 8/10), ("drama", 6/10)])
  , ("Drama", [("drama", 9/10), ("emotional", 8/10), ("thoughtful", 7/10), ("intense", 6/10)])
  , ("Family", [("feel-good", 9/10), ("heartwarming", 8/10), ("uplifting", 7/10), ("comedy", 6/10)])
  , ("Fantasy", [("adventure", 8/10), ("magical", 9/10), ("uplifting", 6/10), ("feel-good", 5/10)])
  , ("History", [("drama", 7/10), ("thoughtful", 8/10), ("educational", 6/10)])
  , ("Horror", [("scary", 9/10), ("intense", 8/10), ("thriller", 7/10)])
  , ("Music", [("uplifting", 8/10), ("feel-good", 7/10), ("emotional", 6/10), ("heartwarming", 5/10)])
  , ("Mystery", [("thriller", 8/10), ("intense", 7/10), ("thoughtful", 6/10)])
  , ("Romance", [("romance", 9/10), ("heartwarming", 8/10), ("feel-good", 7/10), ("emotional", 6/10)])
  , ("Science Fiction", [("sci-fi", 9/10), ("adventure", 7/10), ("thoughtful", 6/10), ("action", 5/10)])
  , ("TV Movie", [("drama", 6/10), ("feel-good", 5/10)])
  , ("Thriller", [("thriller", 9/10), ("intense", 8/10), ("action", 6/10)])
  , ("War", [("intense", 8/10), ("drama", 7/10), ("action", 6/10), ("thoughtful", 5/10)])
  , ("Western", [("action", 7/10), ("adventure", 6/10), ("drama", 5/10)]) ]

/-- `self.emotion_mood_mapping` (lines 61-70). -/
def emotion_mood_mapping : List (String × MoodDict) :=
  [ ("joy", [("feel-good", 9/10), ("uplifting", 8/10), ("comedy", 7/10), ("heartwarming", 6/10)])
  , ("sadness", [("drama", 8/10), ("emotional", 9/10), ("melancholic", 7/10), ("thoughtful", 6/10)])
  , ("anger", [("intense", 8/10), ("action", 7/10), ("thriller", 6/10)])
  , ("fear", [("scary", 9/10), ("thriller", 8/10), ("intense", 7/10)])
  , ("surprise", [("adventure", 7/10), ("thriller", 6/10), ("comedy", 5/10)])
  , ("excitement", [("action", 8/10), ("adventure", 7/10), ("energetic", 9/10), ("uplifting", 6/10)])
  , ("calmness", [("calming", 9/10), ("peaceful", 8/10), ("thoughtful", 7/10), ("drama", 5/10)])
  , ("nostalgia", [("nostalgic", 9/10), ("heartwarming", 7/10), ("drama", 6/10), ("feel-good", 5/10)]) ]

/-- `movie_moods` dict built in `_calculate_mood_score` (lines 74-80): for each
genre of the movie present in the lexicon, merge that genre's mood weights by
`movie_moods[mood] = max(movie_moods.get(mood, 0), score)`. -/
def movieMoods (movie : MovieData) : MoodDict :=
  movie.genres.foldl
    (fun md genre =>
      match tableGet genre_mood_mapping genre with
      | none => md
      | some gm =>
          gm.foldl (fun md2 p => dictSet md2 p.1 (max (dictGet md2 p.1) p.2)) md)
    []

/-- `_calculate_mood_score` (lines 72-97): returns `(total_score, mood_matches)`. -/
def calculate_mood_score (movie : MovieData) (target_moods : MoodDict) : ℚ × MoodDict :=
  let movie_moods := movieMoods movie
  let step :=
    target_moods.foldl
      (fun (acc : ℚ × MoodDict) p =>
        let movie_mood_score := dictGet movie_moods p.1
        let match_score := min p.2 movie_mood_score
        (acc.1 + match_score * p.2, dictSet acc.2 p.1 match_score))
      (0, [])
  let total_target := target_moods.foldl (fun s p => s + p.2) 0
  (if 0 < total_target then step.1 / total_target else step.1, step.2)

/-- `_calculate_emotion_score` (lines 99-122). -/
def calculate_emotion_score (movie : MovieData) (target_emotions : MoodDict) : ℚ × MoodDict :=
  let step :=
    target_emotions.foldl
      (fun (acc : ℚ × MoodDict) p =>
        match tableGet emotion_mood_mapping p.1 with
        | none => acc
        | some em =>
            let emotion_mood_score :=
              em.foldl
                (fun e mp =>
                  movie.genres.foldl
                    (fun e2 genre =>
                      match tableGet genre_mood_mapping genre with
                      | none => e2
                      | some gm => max e2 (dictGet gm mp.1 * mp.2))
                    e)
                0
            (acc.1 + emotion_mood_score * p.2, dictSet acc.2 p.1 emotion_mood_score))
      (0, [])
  let total_target := target_emotions.foldl (fun s p => s + p.2) 0
  (if 0 < total_target then step.1 / total_target else step.1, step.2)

/-- `_calculate_quality_score` (lines 124-135). -/
def calculate_quality_score (movie : MovieData) : ℚ :=
  let rating_score := min (movie.vote_average / 10) 1
  let popularity_score := min (movie.popularity / 100) (3/10)
  let vote_reliability := min (movie.vote_count / 1000) (1/5)
  rating_score + popularity_score + vote_reliability

/-- `mood.replace('-', ' ')` in `_generate_match_reasons`. -/
def replaceDash (s : String) : String :=
  String.mk (s.data.map (fun c => if c = '-' then ' ' else c))

/-- Stable descending order on dict entries by value: Python's
`sorted(d.items(), key=lambda x: x[1], reverse=True)` is a stable sort, which
`List.insertionSort` realises with the relation "may come first". -/
def entryGe (a b : String × ℚ) : Prop := b.2 ≤ a.2

instance : DecidableRel entryGe := fun a b => inferInstanceAs (Decidable (b.2 ≤ a.2))

/-- `_generate_match_reasons` (lines 137-173). -/
def generate_match_reasons (movie : MovieData) (mood_matches emotion_matches : MoodDict)
    (target_moods target_emotions : MoodDict) : List String :=
  let top_moods := (List.insertionSort entryGe mood_matches).take 3
  let mood_reasons :=
    (top_moods.filter (fun p => decide (3/10 < p.2) && dictHasKey target_moods p.1)).map
      (fun p => "Matches your " ++ replaceDash p.1 ++ " mood")
  let top_emotions := (List.insertionSort entryGe emotion_matches).take 2
  let emotion_reasons :=
    (top_emotions.filter (fun p => decide (3/10 < p.2) && dictHasKey target_emotions p.1)).map
      (fun p => "Suits your " ++ p.1 ++ " feeling")
  let genre_reasons :=
    match movie.genres with
    | [] => []
    | g :: _ => ["Great " ++ g.toLower ++ " film"]
  let quality_reasons :=
    if 15/2 ≤ movie.vote_average then ["Highly rated film"]
    else if 13/2 ≤ movie.vote_average then ["Well-reviewed movie"]
    else []
  let popularity_reasons := if 50 < movie.popularity then ["Popular choice"] else []
  let reasons := mood_reasons ++ emotion_reasons ++ genre_reasons ++ quality_reasons
    ++ popularity_reasons
  let reasons := if reasons = [] then ["Recommended for you"] else reasons
  reasons.take 4

/-- `RecommendationResult` dataclass (lines 20-27). -/
structure RecommendationResult where
  movie : MovieData
  score : ℚ
  match_reasons : List String
  mood_matches : MoodDict
  emotion_matches : MoodDict
deriving DecidableEq, Repr

/-- De-duplication loop of `recommend_by_mood_analysis` (lines 199-205):
`seen_ids` set scan over the candidate sequence, first occurrence kept,
first-seen order preserved. -/
def dedupGo (seen : List ℤ) : List MovieData → List MovieData
  | [] => []
  | movie :: rest =>
      if movie.id ∈ seen then dedupGo seen rest
      else movie :: dedupGo (movie.id :: seen) rest

/-- `unique_candidates` computed at lines 199-205 (mood-driven path). -/
def remove_duplicates (candidates : List MovieData) : List MovieData :=
  dedupGo [] candidates

/-- `_mood_to_search_terms` (lines 307-323). -/
def mood_to_search_terms (mood : String) : List String :=
  let mood_search_map : List (String × List String) :=
    [ ("action", ["action", "adventure", "superhero"])
    , ("romance", ["romance", "love", "romantic"])
    , ("comedy", ["comedy", "funny", "humor"])
    , ("drama", ["drama", "emotional"])
    , ("thriller", ["thriller", "suspense"])
    , ("horror", ["horror", "scary"])
    , ("sci-fi", ["science fiction", "sci-fi", "future"])
    , ("fantasy", ["fantasy", "magic"])
    , ("feel-good", ["feel good", "uplifting", "heartwarming"])
    , ("intense", ["intense", "action", "thriller"])
    , ("calming", ["peaceful", "calm", "relaxing"])
    , ("nostalgic", ["classic", "vintage", "nostalgic"]) ]
  match mood_search_map.find? (fun p => p.1 == mood) with
  | some p => p.2
  | none => [mood]

/-- Candidate gathering of `recommend_by_mood_analysis` (lines 181-192): top 3
target moods by weight (stable descending sort), each with weight > 0.3
expanded to search terms, at most 10 results kept per search.  The TMDb client
(`search_movies`) is an oracle parameter. -/
def moodCandidates (search : String → List MovieData) (target_moods : MoodDict) :
    List MovieData :=
  let top_moods := (List.insertionSort entryGe target_moods).take 3
  top_moods.foldl
    (fun cs p =>
      if 3/10 < p.2 then
        (mood_to_search_terms p.1).foldl (fun cs2 term => cs2 ++ (search term).take 10) cs
      else cs)
    []

/-- Lines 194-197: popularity fallback when fewer than 20 candidates. -/
def moodCandidatesWithFallback (search : String → List MovieData)
    (popular : List MovieData) (target_moods : MoodDict) : List MovieData :=
  let candidates := moodCandidates search target_moods
  if candidates.length < 20 then candidates ++ popular.take 20 else candidates

/-- Scoring loop body of `recommend_by_mood_analysis` (lines 209-228). -/
def scoreMovie (target_moods target_emotions : MoodDict) (movie : MovieData) :
    RecommendationResult :=
  let ms := calculate_mood_score movie target_moods
  let es := calculate_emotion_score movie target_emotions
  let quality_score := calculate_quality_score movie
  let total_score := ms.1 * (4/10) + es.1 * (4/10) + quality_score * (2/10)
  { movie := movie
  , score := total_score
  , match_reasons := generate_match_reasons movie ms.2 es.2 target_moods target_emotions
  , mood_matches := ms.2
  , emotion_matches := es.2 }

/-- Scored candidate list of the mood-driven path before sorting. -/
def moodScoredCandidates (search : String → List MovieData) (popular : List MovieData)
    (target_moods target_emotions : MoodDict) : List RecommendationResult :=
  (remove_duplicates (moodCandidatesWithFallback search popular target_moods)).map
    (scoreMovie target_moods target_emotions)

/-- Stable descending order on results by combined score
(`recommendations.sort(key=lambda x: x.score, reverse=True)`, line 231). -/
def resultGe (a b : RecommendationResult) : Prop := b.score ≤ a.score

instance : DecidableRel resultGe := fun a b => inferInstanceAs (Decidable (b.score ≤ a.score))

/-- `recommend_by_mood_analysis` (lines 175-232).  `analysis_result` is passed
as its two components `target_moods` / `target_emotions`; the TMDb client is an
oracle (`search`, `popular`). -/
def recommend_by_mood_analysis (search : String → List MovieData)
    (popular : List MovieData) (target_moods target_emotions : MoodDict)
    (num_recommendations : ℕ) : List RecommendationResult :=
  (List.insertionSort resultGe
      (moodScoredCandidates search popular target_moods target_emotions)).take
    num_recommendations

/-! ### Criteria extraction (`_extract_search_criteria`, lines 325-392)

`re.search`/`re.findall` are embedded as left-to-right scans over the
character list.  `\d` is embedded as ASCII digits, `\w` as ASCII alphanumeric
or underscore, `\s` as whitespace, `str.lower` as per-character ASCII
lowering — the fragment actually exercised by the source's tables and by the
concrete inputs below. -/

/-- Numeric value of a decimal digit character. -/
def digitVal (c : Char) : ℕ := c.toNat - '0'.toNat

/-- Leftmost match of the pattern "four digits followed by `suffix`"
(`(\d{4})年`, `(\d{4})s`, `(\d{4})` for `suffix = none`), returning the
captured 4-digit group.  `re.search` returns only the leftmost match. -/
def searchNum4 (suffix : Option Char) : List Char → Option ℕ
  | [] => none
  | c :: rest =>
      let here :=
        match c :: rest with
        | a :: b :: c2 :: d :: tail =>
            if a.isDigit && b.isDigit && c2.isDigit && d.isDigit then
              let v := ((digitVal a * 10 + digitVal b) * 10 + digitVal c2) * 10 + digitVal d
              match suffix with
              | none => some v
              | some ch =>
                  match tail with
                  | e :: _ => if e = ch then some v else none
                  | [] => none
            else none
        | _ => none
      match here with
      | some v => some v
      | none => searchNum4 suffix rest

/-- Lines 343-349: a pattern's leftmost match only sets the year when it lies
in 1900-2030 (the `break` is inside the range check, so an out-of-range match
falls through to the next pattern but never searches further in the text). -/
def checkYearRange (o : Option ℕ) : Option ℕ :=
  match o with
  | some y => if 1900 ≤ y ∧ y ≤ 2030 then some y else none
  | none => none

/-- Year extraction (lines 336-349): try `(\d{4})年`, then `(\d{4})s`, then
`(\d{4})`, over the raw text, first in-range match wins. -/
def extractYear (text : List Char) : Option ℕ :=
  (checkYearRange (searchNum4 (some '年') text)).orElse fun _ =>
    (checkYearRange (searchNum4 (some 's') text)).orElse fun _ =>
      checkYearRange (searchNum4 none text)

/-- Maximal digit run and remainder (`\d+` is greedy; the unit that follows
starts with a non-digit, so the regex never backtracks into the run). -/
def takeDigits : List Char → ℕ → ℕ × List Char
  | [], acc => (acc, [])
  | c :: rest, acc =>
      if c.isDigit then takeDigits rest (acc * 10 + digitVal c) else (acc, c :: rest)

/-- Leftmost match of `(\d+)\s*<unit>` (with `allowSpaces = false` for the
`(\d+)分` pattern, which has no `\s*`); the trailing `s?` of `minutes?` /
`mins?` is irrelevant to whether a match exists. -/
def searchRuntime (unit : List Char) (allowSpaces : Bool) : List Char → Option ℕ
  | [] => none
  | c :: rest =>
      if c.isDigit then
        let d := takeDigits (c :: rest) 0
        let after := if allowSpaces then d.2.dropWhile (fun x => x.isWhitespace) else d.2
        if unit.isPrefixOf after then some d.1 else searchRuntime unit allowSpaces rest
      else searchRuntime unit allowSpaces rest

/-- Runtime extraction (lines 351-366) over the lowered text: first pattern
with any match wins unconditionally; the discovery window is
`(max(runtime - 15, 0), runtime + 15)` — truncated `ℕ` subtraction is exactly
`max(· - 15, 0)`. -/
def extractRuntime (lower : List Char) : Option (ℕ × ℕ) :=
  ((searchRuntime ['分'] false lower).orElse fun _ =>
    (searchRuntime ['m','i','n','u','t','e'] true lower).orElse fun _ =>
      searchRuntime ['m','i','n'] true lower).map
    (fun runtime => (runtime - 15, runtime + 15))

/-- `needle in hay` on Python strings (substring containment). -/
def containsSub (hay : List Char) (needle : List Char) : Bool :=
  needle.isPrefixOf hay ||
    match hay with
    | [] => false
    | _ :: t => containsSub t needle

/-- `genre_keywords` table (lines 369-380), in source order. -/
def genre_keywords : List (String × List String) :=
  [ ("action", ["action", "アクション"])
  , ("comedy", ["comedy", "funny", "コメディ", "笑える"])
  , ("romance", ["romance", "romantic", "ロマンス", "恋愛"])
  , ("drama", ["drama", "ドラマ"])
  , ("horror", ["horror", "scary", "ホラー", "怖い"])
  , ("thriller", ["thriller", "suspense", "スリラー"])
  , ("sci-fi", ["sci-fi", "science fiction", "SF"])
  , ("fantasy", ["fantasy", "ファンタジー"])
  , ("animation", ["animation", "animated", "アニメ"])
  , ("documentary", ["documentary", "ドキュメンタリー"]) ]

/-- Lines 382-386: one keyword appended per genre whose synonym list has a
substring hit in the lowered text (inner `break` = `List.any`). -/
def genreKeywordHits (lower : List Char) : List String :=
  genre_keywords.foldl
    (fun acc p =>
      if p.2.any (fun kw => containsSub lower kw.data) then acc ++ [p.1] else acc)
    []

/-- Word characters of `\w` (ASCII fragment). -/
def isWordChar (c : Char) : Bool := c.isAlphanum || c = '_'

/-- `re.findall(r'\b\w+\b', text_lower)`: the maximal runs of word
characters, in order (`cur` is the reversed run being accumulated). -/
def wordTokensAux : List Char → List Char → List (List Char)
  | [], cur => if cur = [] then [] else [cur.reverse]
  | c :: rest, cur =>
      if isWordChar c then wordTokensAux rest (c :: cur)
      else if cur = [] then wordTokensAux rest []
      else cur.reverse :: wordTokensAux rest []

def wordTokens (s : List Char) : List String :=
  (wordTokensAux s []).map String.mk

/-- The `criteria` dict (lines 327-332); `runtime = {}` / `year = None` are
the absent cases of the `Option`s, `genres` is initialised empty and never
assigned anywhere in the source. -/
structure SearchCriteria where
  keywords : List String
  genres : List String
  year : Option ℕ
  runtime : Option (ℕ × ℕ)
deriving DecidableEq, Repr

/-- `str.lower` (ASCII fragment). -/
def pyLower (s : String) : String := String.mk (s.data.map Char.toLower)

/-- `_extract_search_criteria` (lines 325-392). -/
def extract_search_criteria (text : String) : SearchCriteria :=
  let text_lower := (pyLower text).data
  let year := extractYear text.data
  let runtime := extractRuntime text_lower
  let keywords := genreKeywordHits text_lower
    ++ (wordTokens text_lower).filter (fun kw => 3 < kw.length)
  { keywords := keywords, genres := [], year := year, runtime := runtime }

/-! ### Text-relevance scoring and the text-driven path -/

/-- `movie.overview.lower().split()` / `search_lower.split()`: Python
`str.split()` without arguments is exactly the nonempty whitespace-separated
runs; reuse the tokenizer shape with whitespace as the separator class. -/
def pySplitAux : List Char → List Char → List (List Char)
  | [], cur => if cur = [] then [] else [cur.reverse]
  | c :: rest, cur =>
      if c.isWhitespace then
        if cur = [] then pySplitAux rest [] else cur.reverse :: pySplitAux rest []
      else pySplitAux rest (c :: cur)

def pySplit (s : String) : List String := (pySplitAux s.data []).map String.mk

/-- `int(movie.release_date[:4])` guarded by try/except (lines 420-427):
defined when the first min(4, length) characters are a nonempty digit string. -/
def parseYearPrefix (release_date : String) : Option ℤ :=
  let cs := release_date.data.take 4
  if cs ≠ [] ∧ cs.all (fun c => c.isDigit) then
    some (cs.foldl (fun acc c => acc * 10 + (digitVal c : ℤ)) 0)
  else none

/-- `_calculate_text_relevance` (lines 394-429).  The division by
`len(search_words)` raises in Python only for an all-whitespace search text,
which the HTTP layer has already rejected; `ℚ` division by zero yields 0. -/
def calculate_text_relevance (movie : MovieData) (search_text : String)
    (criteria : SearchCriteria) : ℚ :=
  let search_lower := pyLower search_text
  let title_score : ℚ :=
    (if containsSub (pyLower movie.title).data search_lower.data then 8/10 else 0)
      + (if containsSub (pyLower movie.original_title).data search_lower.data then 6/10 else 0)
  let overview_words := pySplit (pyLower movie.overview)
  let search_words := pySplit search_lower
  let word_matches := (search_words.filter (fun w => overview_words.contains w)).length
  let overview_score : ℚ := ((word_matches : ℚ) / (search_words.length : ℚ)) * (4/10)
  let genre_score : ℚ :=
    criteria.keywords.foldl
      (fun acc kw =>
        movie.genres.foldl
          (fun acc2 genre =>
            if containsSub (pyLower genre).data (pyLower kw).data then acc2 + 3/10 else acc2)
          acc)
      0
  let year_score : ℚ :=
    match criteria.year with
    | none => 0
    | some y =>
        if movie.release_date = "" then 0
        else
          match parseYearPrefix movie.release_date with
          | none => 0
          | some movie_year =>
              if movie_year = (y : ℤ) then 5/10
              else if (movie_year - (y : ℤ)).natAbs ≤ 2 then 2/10
              else 0
  min (title_score + overview_score + genre_score + year_score) 1

/-- `_generate_text_match_reasons` (lines 431-464). -/
def generate_text_match_reasons (movie : MovieData) (search_text : String)
    (criteria : SearchCriteria) : List String :=
  let title_reasons :=
    if containsSub (pyLower movie.title).data (pyLower search_text).data then
      ["Title matches your search"]
    else []
  let genre_reasons :=
    if movie.genres ≠ [] then
      criteria.keywords.foldl
        (fun acc kw =>
          match movie.genres.find? (fun g => containsSub (pyLower g).data (pyLower kw).data) with
          | some genre => acc ++ ["Matches " ++ genre ++ " genre"]
          | none => acc)
        []
    else []
  let year_reasons :=
    match criteria.year with
    | none => []
    | some y =>
        if movie.release_date = "" then []
        else
          match parseYearPrefix movie.release_date with
          | some movie_year =>
              if movie_year = (y : ℤ) then ["From " ++ toString movie_year] else []
          | none => []
  let quality_reasons := if 15/2 ≤ movie.vote_average then ["Highly rated"] else []
  let reasons := title_reasons ++ genre_reasons ++ year_reasons ++ quality_reasons
  let reasons := if reasons = [] then ["Recommended based on your search"] else reasons
  reasons.take 4

/-- Candidate gathering of `recommend_by_text_search` (lines 243-271): direct
search (≤15), per-keyword searches (≤10), genre discovery (≤10 each; the
extracted genre list is always empty in the source), year discovery (≤10),
runtime discovery (≤10).  TMDb calls are oracle parameters. -/
def textCandidates (search : String → List MovieData)
    (discoverGenre : String → List MovieData) (discoverYear : ℕ → List MovieData)
    (discoverRuntime : ℕ → ℕ → List MovieData) (search_text : String) : List MovieData :=
  let criteria := extract_search_criteria search_text
  let candidates := (search search_text).take 15
  let candidates :=
    criteria.keywords.foldl (fun acc kw => acc ++ (search kw).take 10) candidates
  let candidates :=
    if criteria.genres ≠ [] then
      criteria.genres.foldl (fun acc g => acc ++ (discoverGenre g).take 10) candidates
    else candidates
  let candidates :=
    match criteria.year with
    | some y => candidates ++ (discoverYear y).take 10
    | none => candidates
  let candidates :=
    match criteria.runtime with
    | some w => candidates ++ (discoverRuntime w.1 w.2).take 10
    | none => candidates
  candidates

/-- `unique_candidates` of the text-driven path, lines 273-279.  The source
loop is `for movie in unique_candidates`, iterating over the list
`unique_candidates` that was initialised to `[]` on the previous line (not
over `candidates`); a Python `for` over a list that starts empty performs no
iterations even though the body appends, so the result is always the empty
list and the collected `candidates` are discarded. -/
def textUniqueCandidates (search : String → List MovieData)
    (discoverGenre : String → List MovieData) (discoverYear : ℕ → List MovieData)
    (discoverRuntime : ℕ → ℕ → List MovieData) (search_text : String) : List MovieData :=
  let _candidates := textCandidates search discoverGenre discoverYear discoverRuntime search_text
  []

/-- Scored list of the text-relevance branch (lines 286-302). -/
def textScoredCandidates (search : String → List MovieData)
    (discoverGenre : String → List MovieData) (discoverYear : ℕ → List MovieData)
    (discoverRuntime : ℕ → ℕ → List MovieData) (search_text : String) :
    List RecommendationResult :=
  let criteria := extract_search_criteria search_text
  (textUniqueCandidates search discoverGenre discoverYear discoverRuntime search_text).map
    (fun movie =>
      let relevance_score := calculate_text_relevance movie search_text criteria
      let quality_score := calculate_quality_score movie
      { movie := movie
      , score := relevance_score * (7/10) + quality_score * (3/10)
      , match_reasons := generate_text_match_reasons movie search_text criteria
      , mood_matches := []
      , emotion_matches := [] })

/-- `recommend_by_text_search` (lines 234-305).  The emotion analyzer's result
for `search_text` is passed as `analysisMoods` / `analysisEmotions`; line 282
delegates to `recommend_by_mood_analysis` when either is non-empty (Python
truthiness of the dicts), otherwise scores by text relevance and truncates. -/
def recommend_by_text_search (search : String → List MovieData)
    (discoverGenre : String → List MovieData) (discoverYear : ℕ → List MovieData)
    (discoverRuntime : ℕ → ℕ → List MovieData) (popular : List MovieData)
    (analysisMoods analysisEmotions : MoodDict) (search_text : String)
    (num_recommendations : ℕ) : List RecommendationResult :=
  if analysisMoods ≠ [] ∨ analysisEmotions ≠ [] then
    recommend_by_mood_analysis search popular analysisMoods analysisEmotions
      num_recommendations
  else
    (List.insertionSort resultGe
        (textScoredCandidates search discoverGenre discoverYear discoverRuntime
          search_text)).take num_recommendations

/-! ### Diversity Selector (`recommendation_engine.py`, `_apply_diversity_filter`) -/

/-- The movie JSON dict of the secondary engine, restricted to the fields the
diversity filter reads (`movie.get('genres', [])`, `movie.get('director', '')`)
plus the identifying fields. -/
structure JMovie where
  id : ℤ
  title : String
  genres : List String
  director : String
deriving DecidableEq, Repr

/-- An element of `movie_scores` (`{'movie': ..., 'score': ..., 'match_reasons': ...}`). -/
structure ScoredItem where
  movie : JMovie
  score : ℚ
  match_reasons : List String
deriving DecidableEq, Repr

/-- `set.update(genres)` on the running used-genre set, embedded as an
insertion-ordered duplicate-free list. -/
def setUpdate (used : List String) (genres : List String) : List String :=
  genres.foldl (fun u g => if u.contains g then u else u ++ [g]) used

/-- One iteration of the greedy scan (lines 186-202).  `set(movie.get('genres', []))`
is embedded as `genres.dedup` (same membership and cardinality);
`genre_overlap = len(genres & used_genres) / max(len(genres), 1)`. -/
def diversityStep (num_recommendations : ℕ)
    (st : List ScoredItem × List String × List String) (item : ScoredItem) :
    List ScoredItem × List String × List String :=
  let selected := st.1
  let used_genres := st.2.1
  let used_directors := st.2.2
  let genres := item.movie.genres.dedup
  let director := item.movie.director
  let genre_overlap : ℚ :=
    ((genres.filter (fun g => used_genres.contains g)).length : ℚ) / (max genres.length 1 : ℚ)
  let director_used := used_directors.contains director
  if selected.length < num_recommendations ∧
      (genre_overlap < 7/10 ∨ selected.length < 3) ∧
      (¬ director_used = true ∨ selected.length < 5) then
    (selected ++ [item], setUpdate used_genres genres, setUpdate used_directors [director])
  else st

/-- `_apply_diversity_filter` (lines 175-209): early return when the list
already fits, otherwise greedy scan in score order with genre/director
admission rules, then backfill from the unselected remainder and truncate. -/
def apply_diversity_filter (movie_scores : List ScoredItem) (num_recommendations : ℕ) :
    List ScoredItem :=
  if movie_scores.length ≤ num_recommendations then movie_scores
  else
    let st := movie_scores.foldl (diversityStep num_recommendations) ([], [], [])
    let selected := st.1
    let selected :=
      if selected.length < num_recommendations then
        selected ++
          (movie_scores.filter (fun item => ¬ selected.contains item)).take
            (num_recommendations - selected.length)
      else selected
    selected.take num_recommendations

/-! ### HTTP entry points (`app.py`): input validation of the two
recommendation endpoints -/

/-- `str.strip()`: remove leading and trailing whitespace. -/
def pyStrip (s : String) : String :=
  String.mk (((s.data.dropWhile
    (fun c => c.isWhitespace)).reverse.dropWhile (fun c => c.isWhitespace)).reverse)

/-- The parsed JSON body as far as the handlers read it: `None` for a missing
or non-object body, otherwise the optional `text` and `num_recommendations`
fields. -/
structure RequestBody where
  text : Option String
  num_recommendations : Option ℕ
deriving DecidableEq, Repr

/-- Outcome of a recommendation endpoint: a 400 Bad-request JSON error, or a
200 response carrying the engine's recommendation list. -/
inductive ApiResponse where
  | badRequest (message : String)
  | ok (recommendations : List RecommendationResult)
deriving DecidableEq

/-- `/api/recommend/mood` handler (`recommend_by_mood`, app.py lines 176-248),
as far as validation and the engine call: the emotion analysis (with its
exception fallback applied) is the oracle pair `analysisMoods` /
`analysisEmotions`, the TMDb client the oracles `search` / `popular`. -/
def recommend_by_mood_endpoint (search : String → List MovieData)
    (popular : List MovieData) (analysisMoods analysisEmotions : MoodDict)
    (data : Option RequestBody) : ApiResponse :=
  match data with
  | none => .badRequest "Missing required field: text"
  | some body =>
      match body.text with
      | none => .badRequest "Missing required field: text"
      | some t =>
          let mood_text := pyStrip t
          if mood_text = "" then .badRequest "Text cannot be empty"
          else
            let num_recommendations := min (body.num_recommendations.getD 8) 20
            .ok (recommend_by_mood_analysis search popular analysisMoods analysisEmotions
              num_recommendations)

/-- `/api/recommend/search` handler (`recommend_by_search`, app.py lines
262-313), as far as validation and the engine call. -/
def recommend_by_search_endpoint (search : String → List MovieData)
    (discoverGenre : String → List MovieData) (discoverYear : ℕ → List MovieData)
    (discoverRuntime : ℕ → ℕ → List MovieData) (popular : List MovieData)
    (analysisMoods analysisEmotions : MoodDict) (data : Option RequestBody) : ApiResponse :=
  match data with
  | none => .badRequest "Missing required field: text"
  | some body =>
      match body.text with
      | none => .badRequest "Missing required field: text"
      | some t =>
          let search_text := pyStrip t
          if search_text = "" then .badRequest "Search text cannot be empty"
          else
            let num_recommendations := min (body.num_recommendations.getD 8) 20
            .ok (recommend_by_text_search search discoverGenre discoverYear discoverRuntime
              popular analysisMoods analysisEmotions search_text num_recommendations)

/-! ### Specification-side definitions (for refinement comparison) -/

/-- Per the spec's words: lexicon lookup `genreToMoods`, empty vector for an
unknown genre. -/
def genreToMoods (genre : String) : MoodDict :=
  (tableGet genre_mood_mapping genre).getD []

/-- Per the spec's words: the movie-inferred mood weight for one label, the
max-per-key merge of the genre lexicon vectors of the movie's genres. -/
def movieMoodWeightSpec (movie : MovieData) (label : String) : ℚ :=
  movie.genres.foldl (fun acc g => max acc (dictGet (genreToMoods g) label)) 0

/-- Per the spec's words: the mood-match score,
`sum(min(targetWeight, movieMoodWeight) * targetWeight) / sum(targetWeight)`
(`ℚ` division by 0 is 0, covering the empty target). -/
def moodScoreSpec (movie : MovieData) (target_moods : MoodDict) : ℚ :=
  (target_moods.map (fun p => min p.2 (movieMoodWeightSpec movie p.1) * p.2)).sum /
    (target_moods.map (fun p => p.2)).sum

/-- Per the claim on year extraction: a position holds a plausible 4-digit
match when four digits start there and their value lies in 1900-2030. -/
def plausibleAt : List Char → Option ℕ
  | a :: b :: c :: d :: _ =>
      if a.isDigit && b.isDigit && c.isDigit && d.isDigit then
        let v := ((digitVal a * 10 + digitVal b) * 10 + digitVal c) * 10 + digitVal d
        if 1900 ≤ v ∧ v ≤ 2030 then some v else none
      else none
  | _ => none

/-- Per the claim on year extraction: the first (leftmost) plausible 4-digit
match in the text. -/
def firstPlausibleYear : List Char → Option ℕ
  | [] => none
  | c :: rest =>
      match plausibleAt (c :: rest) with
      | some v => some v
      | none => firstPlausibleYear rest

/-! ### Dictionary lemmas -/

theorem dictGet_dictSet_self (d : MoodDict) (k : String) (v : ℚ) :
    dictGet (dictSet d k v) k = v := by
  induction d with
  | nil => simp [dictSet, dictGet]
  | cons p rest ih =>
      cases h : (p.1 == k) with
      | true => simp [dictSet, dictGet, h]
      | false => simp [dictSet, dictGet, h, ih]

theorem dictGet_dictSet_ne (d : MoodDict) (k k2 : String) (v : ℚ) (h : k ≠ k2) :
    dictGet (dictSet d k v) k2 = dictGet d k2 := by
  induction d with
  | nil => simp [dictSet, dictGet, beq_iff_eq, h]
  | cons p rest ih =>
      cases hp : (p.1 == k) with
      | true =>
          have he : p.1 = k := beq_iff_eq.mp hp
          have hp2 : (p.1 == k2) = false := beq_eq_false_iff_ne.mpr (by rw [he]; exact h)
          have hk2 : (k == k2) = false := beq_eq_false_iff_ne.mpr h
          simp [dictSet, dictGet, hp, hp2, hk2]
      | false =>
          cases hp2 : (p.1 == k2) with
          | true => simp [dictSet, dictGet, hp, hp2]
          | false => simp [dictSet, dictGet, hp, hp2, ih]

/-- A fold of `dictSet`s whose keys all differ from `k` does not change the
value at `k`. -/
theorem dictGet_foldl_dictSet_of_ne (w : String × ℚ → ℚ) (k : String) :
    ∀ (tm : MoodDict) (d : MoodDict), (∀ q ∈ tm, q.1 ≠ k) →
      dictGet (tm.foldl (fun d2 q => dictSet d2 q.1 (w q)) d) k = dictGet d k := by
  intro tm
  induction tm with
  | nil => intro d _; rfl
  | cons q rest ih =>
      intro d h
      have hq : q.1 ≠ k := h q (List.mem_cons_self q rest)
      calc dictGet ((q :: rest).foldl (fun d2 q2 => dictSet d2 q2.1 (w q2)) d) k
          = dictGet (rest.foldl (fun d2 q2 => dictSet d2 q2.1 (w q2)) (dictSet d q.1 (w q))) k := rfl
        _ = dictGet (dictSet d q.1 (w q)) k :=
            ih (dictSet d q.1 (w q)) (fun q2 hq2 => h q2 (List.mem_cons_of_mem q hq2))
        _ = dictGet d k := dictGet_dictSet_ne d q.1 k (w q) hq

/-- Looking up a key of a duplicate-free association list after folding
`dictSet` over it returns that key's assigned value. -/
theorem dictGet_foldl_dictSet (w : String × ℚ → ℚ) :
    ∀ (tm : MoodDict) (d : MoodDict), (tm.map Prod.fst).Nodup →
      ∀ p ∈ tm, dictGet (tm.foldl (fun d2 q => dictSet d2 q.1 (w q)) d) p.1 = w p := by
  intro tm
  induction tm with
  | nil => intro d _ p hp; cases hp
  | cons q rest ih =>
      intro d hnd p hp
      have hnd2 := List.nodup_cons.mp hnd
      rcases List.mem_cons.mp hp with hpq | hpr
      · subst hpq
        have hne : ∀ q2 ∈ rest, q2.1 ≠ p.1 := by
          intro q2 hq2 he
          exact hnd2.1 (he ▸ List.mem_map_of_mem Prod.fst hq2)
        calc dictGet ((p :: rest).foldl (fun d2 q2 => dictSet d2 q2.1 (w q2)) d) p.1
            = dictGet (rest.foldl (fun d2 q2 => dictSet d2 q2.1 (w q2))
                (dictSet d p.1 (w p))) p.1 := rfl
          _ = dictGet (dictSet d p.1 (w p)) p.1 :=
              dictGet_foldl_dictSet_of_ne w p.1 rest (dictSet d p.1 (w p)) hne
          _ = w p := dictGet_dictSet_self d p.1 (w p)
      · exact ih (dictSet d q.1 (w q)) hnd2.2 p hpr

/-! ### The movie mood profile is the spec's max-per-key merge -/

/-- One genre's merge step, expressed on the looked-up value. -/
theorem dictGet_mergeMax (gm : MoodDict) (label : String) :
    ∀ (md : MoodDict),
      dictGet (gm.foldl (fun md2 p => dictSet md2 p.1 (max (dictGet md2 p.1) p.2)) md) label
        = gm.foldl (fun a p => if p.1 == label then max a p.2 else a) (dictGet md label) := by
  induction gm with
  | nil => intro md; rfl
  | cons p rest ih =>
      intro md
      have hstep : dictGet (dictSet md p.1 (max (dictGet md p.1) p.2)) label
          = if p.1 == label then max (dictGet md label) p.2 else dictGet md label := by
        cases hp : (p.1 == label) with
        | true =>
            have he : p.1 = label := beq_iff_eq.mp hp
            subst he
            simp [dictGet_dictSet_self]
        | false =>
            have hne : p.1 ≠ label := by simpa using hp
            simp [dictGet_dictSet_ne md p.1 label _ hne, hp]
      calc dictGet ((p :: rest).foldl
              (fun md2 q => dictSet md2 q.1 (max (dictGet md2 q.1) q.2)) md) label
          = dictGet (rest.foldl (fun md2 q => dictSet md2 q.1 (max (dictGet md2 q.1) q.2))
              (dictSet md p.1 (max (dictGet md p.1) p.2))) label := rfl
        _ = rest.foldl (fun a q => if q.1 == label then max a q.2 else a)
              (dictGet (dictSet md p.1 (max (dictGet md p.1) p.2)) label) :=
            ih (dictSet md p.1 (max (dictGet md p.1) p.2))
        _ = (p :: rest).foldl (fun a q => if q.1 == label then max a q.2 else a)
              (dictGet md label) := by rw [hstep]; rfl

theorem foldl_val_max_no_key (label : String) :
    ∀ (gm : MoodDict) (x : ℚ), (∀ q ∈ gm, q.1 ≠ label) →
      gm.foldl (fun a p => if p.1 == label then max a p.2 else a) x = x := by
  intro gm
  induction gm with
  | nil => intro x _; rfl
  | cons p rest ih =>
      intro x h
      have hp : (p.1 == label) = false := by
        simpa using h p (List.mem_cons_self p rest)
      calc (p :: rest).foldl (fun a q => if q.1 == label then max a q.2 else a) x
          = rest.foldl (fun a q => if q.1 == label then max a q.2 else a)
              (if p.1 == label then max x p.2 else x) := rfl
        _ = x := by
            rw [hp]
            exact ih x (fun q hq => h q (List.mem_cons_of_mem p hq))

/-- On a duplicate-free mood vector, the per-label max fold is a single `max`
against the dictionary value. -/
theorem foldl_val_max (label : String) :
    ∀ (gm : MoodDict) (x : ℚ), (gm.map Prod.fst).Nodup → 0 ≤ x →
      gm.foldl (fun a p => if p.1 == label then max a p.2 else a) x
        = max x (dictGet gm label) := by
  intro gm
  induction gm with
  | nil =>
      intro x _ hx
      exact ((max_eq_left hx).symm : x = max x (dictGet [] label))
  | cons p rest ih =>
      intro x hnd hx
      have hnd2 := List.nodup_cons.mp hnd
      cases hp : (p.1 == label) with
      | true =>
          have he : p.1 = label := beq_iff_eq.mp hp
          have hne : ∀ q ∈ rest, q.1 ≠ label := by
            intro q hq hql
            exact hnd2.1 (he ▸ hql ▸ List.mem_map_of_mem Prod.fst hq)
          calc (p :: rest).foldl (fun a q => if q.1 == label then max a q.2 else a) x
              = rest.foldl (fun a q => if q.1 == label then max a q.2 else a)
                  (if p.1 == label then max x p.2 else x) := rfl
            _ = max x p.2 := by
                rw [hp]
                exact foldl_val_max_no_key label rest (max x p.2) hne
            _ = max x (dictGet (p :: rest) label) := by simp [dictGet, hp]
      | false =>
          calc (p :: rest).foldl (fun a q => if q.1 == label then max a q.2 else a) x
              = rest.foldl (fun a q => if q.1 == label then max a q.2 else a)
                  (if p.1 == label then max x p.2 else x) := rfl
            _ = max x (dictGet rest label) := by rw [hp]; exact ih x hnd2.2 hx
            _ = max x (dictGet (p :: rest) label) := by simp [dictGet, hp]

/-- Every row of the genre lexicon has duplicate-free mood labels. -/
theorem genre_table_keys_nodup :
    ∀ row ∈ genre_mood_mapping, (row.2.map Prod.fst).Nodup := by decide

theorem tableGet_keys_nodup {g : String} {gm : MoodDict}
    (h : tableGet genre_mood_mapping g = some gm) : (gm.map Prod.fst).Nodup := by
  unfold tableGet at h
  cases hf : List.find? (fun p => p.1 == g) genre_mood_mapping with
  | none => rw [hf] at h; cases h
  | some row =>
      rw [hf] at h
      have hrow : row ∈ genre_mood_mapping := List.mem_of_find?_eq_some hf
      have : row.2 = gm := by simpa using h
      exact this ▸ genre_table_keys_nodup row hrow

/-- The code's `movie_moods` dict agrees pointwise with the spec's
max-per-key merge of the genre lexicon vectors. -/
theorem dictGet_movieMoods (movie : MovieData) (label : String) :
    dictGet (movieMoods movie) label = movieMoodWeightSpec movie label := by
  suffices h : ∀ (gs : List String) (md : MoodDict), 0 ≤ dictGet md label →
      dictGet (gs.foldl
          (fun md2 genre =>
            match tableGet genre_mood_mapping genre with
            | none => md2
            | some gm =>
                gm.foldl (fun md3 p => dictSet md3 p.1 (max (dictGet md3 p.1) p.2)) md2)
          md) label
        = gs.foldl (fun acc g => max acc (dictGet (genreToMoods g) label)) (dictGet md label) by
    exact h movie.genres [] le_rfl
  intro gs
  induction gs with
  | nil => intro md _; rfl
  | cons g rest ih =>
      intro md hmd
      cases htab : tableGet genre_mood_mapping g with
      | none =>
          have hspec : dictGet (genreToMoods g) label = 0 := by
            simp [genreToMoods, htab, dictGet]
          have hmax : max (dictGet md label) (dictGet (genreToMoods g) label)
              = dictGet md label := by rw [hspec]; exact max_eq_left hmd
          calc dictGet ((g :: rest).foldl _ md) label
              = dictGet (rest.foldl _ md) label := by
                show dictGet (rest.foldl _ (match tableGet genre_mood_mapping g with
                  | none => md
                  | some gm => gm.foldl
                      (fun md3 p => dictSet md3 p.1 (max (dictGet md3 p.1) p.2)) md)) label
                  = dictGet (rest.foldl _ md) label
                rw [htab]
            _ = rest.foldl (fun acc g2 => max acc (dictGet (genreToMoods g2) label))
                  (dictGet md label) := ih md hmd
            _ = rest.foldl (fun acc g2 => max acc (dictGet (genreToMoods g2) label))
                  (max (dictGet md label) (dictGet (genreToMoods g) label)) := by rw [hmax]
            _ = (g :: rest).foldl (fun acc g2 => max acc (dictGet (genreToMoods g2) label))
                  (dictGet md label) := rfl
      | some gm =>
          have hnd := tableGet_keys_nodup htab
          have hspec : genreToMoods g = gm := by simp [genreToMoods, htab]
          have hmerge : dictGet (gm.foldl
              (fun md3 p => dictSet md3 p.1 (max (dictGet md3 p.1) p.2)) md) label
              = max (dictGet md label) (dictGet gm label) := by
            rw [dictGet_mergeMax gm label md]
            exact foldl_val_max label gm (dictGet md label) hnd hmd
          have hmd2 : 0 ≤ max (dictGet md label) (dictGet gm label) :=
            le_trans hmd (le_max_left _ _)
          calc dictGet ((g :: rest).foldl _ md) label
              = dictGet (rest.foldl _ (gm.foldl
                  (fun md3 p => dictSet md3 p.1 (max (dictGet md3 p.1) p.2)) md)) label := by
                show dictGet (rest.foldl _ (match tableGet genre_mood_mapping g with
                  | none => md
                  | some gm2 => gm2.foldl
                      (fun md3 p => dictSet md3 p.1 (max (dictGet md3 p.1) p.2)) md)) label
                  = _
                rw [htab]
            _ = rest.foldl (fun acc g2 => max acc (dictGet (genreToMoods g2) label))
                  (dictGet (gm.foldl
                    (fun md3 p => dictSet md3 p.1 (max (dictGet md3 p.1) p.2)) md) label) :=
                ih _ (hmerge ▸ hmd2)
            _ = rest.foldl (fun acc g2 => max acc (dictGet (genreToMoods g2) label))
                  (max (dictGet md label) (dictGet (genreToMoods g) label)) := by
                rw [hmerge, hspec]
            _ = (g :: rest).foldl (fun acc g2 => max acc (dictGet (genreToMoods g2) label))
                  (dictGet md label) := rfl

/-- Seed monotonicity of a max fold. -/
theorem le_foldl_max (f : String → ℚ) :
    ∀ (gs : List String) (acc : ℚ), acc ≤ gs.foldl (fun a g => max a (f g)) acc := by
  intro gs
  induction gs with
  | nil => intro acc; exact le_rfl
  | cons g rest ih =>
      intro acc
      exact le_trans (le_max_left acc (f g)) (ih (max acc (f g)))

theorem movieMoodWeightSpec_nonneg (movie : MovieData) (label : String) :
    0 ≤ movieMoodWeightSpec movie label :=
  le_foldl_max (fun g => dictGet (genreToMoods g) label) movie.genres 0

theorem dictGet_movieMoods_nonneg (movie : MovieData) (label : String) :
    0 ≤ dictGet (movieMoods movie) label := by
  rw [dictGet_movieMoods]
  exact movieMoodWeightSpec_nonneg movie label

/-! ### Closed forms of the scoring folds -/

theorem mood_fold_fst (mm : MoodDict) :
    ∀ (tm : MoodDict) (a : ℚ) (d : MoodDict),
      (tm.foldl
          (fun acc p =>
            (acc.1 + min p.2 (dictGet mm p.1) * p.2, dictSet acc.2 p.1 (min p.2 (dictGet mm p.1))))
          (a, d)).1
        = a + (tm.map (fun p => min p.2 (dictGet mm p.1) * p.2)).sum := by
  intro tm
  induction tm with
  | nil => intro a d; simp
  | cons q rest ih =>
      intro a d
      rw [List.foldl_cons, ih, List.map_cons, List.sum_cons, add_assoc]

theorem mood_fold_snd (mm : MoodDict) :
    ∀ (tm : MoodDict) (a : ℚ) (d : MoodDict),
      (tm.foldl
          (fun acc p =>
            (acc.1 + min p.2 (dictGet mm p.1) * p.2, dictSet acc.2 p.1 (min p.2 (dictGet mm p.1))))
          (a, d)).2
        = tm.foldl (fun d2 p => dictSet d2 p.1 (min p.2 (dictGet mm p.1))) d := by
  intro tm
  induction tm with
  | nil => intro a d; rfl
  | cons q rest ih => intro a d; rw [List.foldl_cons, ih, List.foldl_cons]

theorem foldl_add_eq_sum :
    ∀ (tm : MoodDict) (s : ℚ), tm.foldl (fun s2 p => s2 + p.2) s
      = s + (tm.map (fun p => p.2)).sum := by
  intro tm
  induction tm with
  | nil => intro s; simp
  | cons q rest ih =>
      intro s
      rw [List.foldl_cons, ih, List.map_cons, List.sum_cons, add_assoc]

/-- The first component of `_calculate_mood_score`, in closed form. -/
theorem calculate_mood_score_fst (movie : MovieData) (target_moods : MoodDict) :
    (calculate_mood_score movie target_moods).1
      = if 0 < (target_moods.map (fun p => p.2)).sum
        then (target_moods.map
                (fun p => min p.2 (dictGet (movieMoods movie) p.1) * p.2)).sum /
              (target_moods.map (fun p => p.2)).sum
        else (target_moods.map
                (fun p => min p.2 (dictGet (movieMoods movie) p.1) * p.2)).sum := by
  show (if 0 < target_moods.foldl (fun s p => s + p.2) 0 then _ / _ else _) = _
  rw [mood_fold_fst, foldl_add_eq_sum, zero_add, zero_add]

/-- The second component of `_calculate_mood_score` (the `mood_matches` dict),
in closed form. -/
theorem calculate_mood_score_snd (movie : MovieData) (target_moods : MoodDict) :
    (calculate_mood_score movie target_moods).2
      = target_moods.foldl
          (fun d2 p => dictSet d2 p.1 (min p.2 (dictGet (movieMoods movie) p.1))) [] := by
  show (target_moods.foldl _ ((0 : ℚ), ([] : MoodDict))).2 = _
  rw [mood_fold_snd]

/-- C3: For every target MoodVector whose weights all lie in [0,1] and every
movie, the mood-match score returned by the Scorer lies in [0,1]. -/
theorem mood_score_bounds_C3 (movie : MovieData) (target_moods : MoodDict)
    (h : ∀ p ∈ target_moods, 0 ≤ p.2 ∧ p.2 ≤ 1) :
    0 ≤ (calculate_mood_score movie target_moods).1 ∧
      (calculate_mood_score movie target_moods).1 ≤ 1 := by
  have hT0 : 0 ≤ (target_moods.map (fun p => p.2)).sum := by
    refine List.sum_nonneg ?_
    intro x hx
    obtain ⟨p, hp, he⟩ := List.mem_map.mp hx
    exact he ▸ (h p hp).1
  have hS0 : 0 ≤ (target_moods.map
      (fun p => min p.2 (dictGet (movieMoods movie) p.1) * p.2)).sum := by
    refine List.sum_nonneg ?_
    intro x hx
    obtain ⟨p, hp, he⟩ := List.mem_map.mp hx
    refine he ▸ mul_nonneg (le_min (h p hp).1 (dictGet_movieMoods_nonneg movie p.1)) (h p hp).1
  have hST : (target_moods.map
        (fun p => min p.2 (dictGet (movieMoods movie) p.1) * p.2)).sum
      ≤ (target_moods.map (fun p => p.2)).sum := by
    refine List.sum_le_sum ?_
    intro p hp
    calc min p.2 (dictGet (movieMoods movie) p.1) * p.2
        ≤ p.2 * p.2 := mul_le_mul_of_nonneg_right (min_le_left _ _) (h p hp).1
      _ ≤ 1 * p.2 := mul_le_mul_of_nonneg_right (h p hp).2 (h p hp).1
      _ = p.2 := one_mul _
  rw [calculate_mood_score_fst]
  split_ifs with hT
  · exact ⟨div_nonneg hS0 hT0, (div_le_one hT).mpr hST⟩
  · have hT0' : (target_moods.map (fun p => p.2)).sum = 0 := le_antisymm (not_lt.mp hT) hT0
    exact ⟨hS0, le_trans (hST.trans_eq hT0') zero_le_one⟩

/-- Witness for C3 at the spec's example input. -/
theorem mood_score_bounds_C3_witness :
    0 ≤ (calculate_mood_score
        { id := 1, title := "A", original_title := "A", overview := "", release_date := "",
          genres := ["Action"], vote_average := 7, vote_count := 100, popularity := 10,
          runtime := none } [("action", 4/5)]).1 ∧
      (calculate_mood_score
        { id := 1, title := "A", original_title := "A", overview := "", release_date := "",
          genres := ["Action"], vote_average := 7, vote_count := 100, popularity := 10,
          runtime := none } [("action", 4/5)]).1 ≤ 1 :=
  mood_score_bounds_C3 _ _ (by
    intro p hp
    rw [List.mem_singleton] at hp
    subst hp
    norm_num)

/-- C4: the mood-match score equals
`sum(min(targetWeight, movieMoodWeight) * targetWeight) / sum(targetWeight)`
with `movieMoodWeight` the max-per-key merge of the genre lexicon vectors, and
the per-label matchValues are returned as `mood_matches`. -/
theorem mood_score_formula_C4 (movie : MovieData) (target_moods : MoodDict)
    (h0 : ∀ p ∈ target_moods, 0 ≤ p.2) (hk : (target_moods.map Prod.fst).Nodup) :
    (calculate_mood_score movie target_moods).1 = moodScoreSpec movie target_moods ∧
      ∀ p ∈ target_moods,
        dictGet (calculate_mood_score movie target_moods).2 p.1
          = min p.2 (movieMoodWeightSpec movie p.1) := by
  have hmap : (target_moods.map (fun p => min p.2 (dictGet (movieMoods movie) p.1) * p.2))
      = target_moods.map (fun p => min p.2 (movieMoodWeightSpec movie p.1) * p.2) := by
    refine List.map_congr_left ?_
    intro p _
    rw [dictGet_movieMoods]
  constructor
  · rw [calculate_mood_score_fst, moodScoreSpec]
    split_ifs with hT
    · rw [hmap]
    · have hT0 : 0 ≤ (target_moods.map (fun p => p.2)).sum := by
        refine List.sum_nonneg ?_
        intro x hx
        obtain ⟨p, hp, he⟩ := List.mem_map.mp hx
        exact he ▸ h0 p hp
      have hT0' : (target_moods.map (fun p => p.2)).sum = 0 := le_antisymm (not_lt.mp hT) hT0
      have hz : ∀ p ∈ target_moods, p.2 = 0 := by
        intro p hp
        refine List.all_zero_of_le_zero_le_of_sum_eq_zero ?_ hT0' (List.mem_map_of_mem _ hp)
        intro x hx
        obtain ⟨q, hq, he⟩ := List.mem_map.mp hx
        exact he ▸ h0 q hq
      have hS0 : (target_moods.map
          (fun p => min p.2 (dictGet (movieMoods movie) p.1) * p.2)).sum = 0 := by
        refine List.sum_eq_zero ?_
        intro x hx
        obtain ⟨p, hp, he⟩ := List.mem_map.mp hx
        rw [← he, hz p hp, mul_zero]
      rw [hS0, hT0', div_zero]
  · intro p hp
    rw [calculate_mood_score_snd]
    have h2 := dictGet_foldl_dictSet (fun q => min q.2 (dictGet (movieMoods movie) q.1))
      target_moods [] hk p hp
    simp only at h2
    rw [h2, dictGet_movieMoods]

/-- Witness for C4: the spec's end-to-end example — target `{action: 0.8}`
against a movie with genres `["Action"]` yields moodScore 0.8, with matchValue
0.8 recorded for "action". -/
theorem mood_score_formula_C4_witness :
    (calculate_mood_score
        { id := 1, title := "A", original_title := "A", overview := "", release_date := "",
          genres := ["Action"], vote_average := 7, vote_count := 100, popularity := 10,
          runtime := none } [("action", 4/5)]).1 = 4/5 ∧
      dictGet (calculate_mood_score
        { id := 1, title := "A", original_title := "A", overview := "", release_date := "",
          genres := ["Action"], vote_average := 7, vote_count := 100, popularity := 10,
          runtime := none } [("action", 4/5)]).2 "action" = 4/5 := by
  have h := mood_score_formula_C4
    { id := 1, title := "A", original_title := "A", overview := "", release_date := "",
      genres := ["Action"], vote_average := 7, vote_count := 100, popularity := 10,
      runtime := none } [("action", 4/5)]
    (by
      intro p hp
      rw [List.mem_singleton] at hp
      subst hp
      norm_num)
    (by simp)
  have hw : movieMoodWeightSpec
      { id := 1, title := "A", original_title := "A", overview := "", release_date := "",
        genres := ["Action"], vote_average := 7, vote_count := 100, popularity := 10,
        runtime := none } "action" = max 0 (9/10) := rfl
  refine ⟨?_, ?_⟩
  · rw [h.1, moodScoreSpec]
    simp only [List.map_cons, List.map_nil, List.sum_cons, List.sum_nil]
    rw [hw]
    norm_num
  · have h2 := h.2 ("action", 4/5) (List.mem_singleton.mpr rfl)
    rw [h2, hw]
    norm_num

/-- Movie of the spec's quality-score scenario: voteAverage 10, popularity
200, voteCount 5000. -/
def c9_movie : MovieData :=
  { id := 9, title := "Q", original_title := "Q", overview := "", release_date := "",
    genres := [], vote_average := 10, vote_count := 5000, popularity := 200, runtime := none }

/-- C9: the quality score is
`min(voteAverage/10, 1) + min(popularity/100, 0.3) + min(voteCount/1000, 0.2)`,
left uncapped; the scenario voteAverage=10, popularity=200, voteCount=5000
computes to exactly 1.5 > 1. -/
theorem quality_score_C9 :
    (∀ movie : MovieData,
        calculate_quality_score movie
          = min (movie.vote_average / 10) 1 + min (movie.popularity / 100) (3/10)
            + min (movie.vote_count / 1000) (1/5)) ∧
    calculate_quality_score c9_movie = 3/2 ∧ 1 < calculate_quality_score c9_movie := by
  refine ⟨fun movie => rfl, ?_, ?_⟩
  · norm_num [calculate_quality_score, c9_movie, min_def]
  · norm_num [calculate_quality_score, c9_movie, min_def]

/-- C10: when the scored list already fits in the requested count, the
diversity filter returns it unchanged via the early return, so the admission
rules are only exercised with strictly more candidates than requested. -/
theorem diversity_filter_noop_C10 (movie_scores : List ScoredItem)
    (num_recommendations : ℕ) (h : movie_scores.length ≤ num_recommendations) :
    apply_diversity_filter movie_scores num_recommendations = movie_scores := by
  unfold apply_diversity_filter
  rw [if_pos h]

def c10_item : ScoredItem :=
  { movie := { id := 7, title := "x", genres := ["Drama"], director := "D" }
  , score := 1, match_reasons := [] }

/-- Witness for C10: one scored candidate, two requested. -/
theorem diversity_filter_noop_C10_witness :
    [c10_item].length ≤ 2 ∧ apply_diversity_filter [c10_item] 2 = [c10_item] :=
  ⟨by decide, diversity_filter_noop_C10 [c10_item] 2 (by decide)⟩

/-- C7: a request whose text strips to the empty string is answered with the
Bad-request error by both recommendation endpoints; the result does not
depend on any engine oracle, so the recommendation pipeline is never
consulted. -/
theorem empty_text_rejected_C7 (search : String → List MovieData)
    (discoverGenre : String → List MovieData) (discoverYear : ℕ → List MovieData)
    (discoverRuntime : ℕ → ℕ → List MovieData) (popular : List MovieData)
    (analysisMoods analysisEmotions : MoodDict) (body : RequestBody) (t : String)
    (htext : body.text = some t) (hempty : pyStrip t = "") :
    recommend_by_mood_endpoint search popular analysisMoods analysisEmotions (some body)
      = ApiResponse.badRequest "Text cannot be empty" ∧
    recommend_by_search_endpoint search discoverGenre discoverYear discoverRuntime popular
      analysisMoods analysisEmotions (some body)
      = ApiResponse.badRequest "Search text cannot be empty" := by
  constructor
  · simp [recommend_by_mood_endpoint, htext, hempty]
  · simp [recommend_by_search_endpoint, htext, hempty]

/-- Witness for C7: a whitespace-only request body. -/
theorem empty_text_rejected_C7_witness :
    pyStrip "   " = "" ∧
    recommend_by_mood_endpoint (fun _ => []) [] [] []
        (some { text := some "   ", num_recommendations := none })
      = ApiResponse.badRequest "Text cannot be empty" ∧
    recommend_by_search_endpoint (fun _ => []) (fun _ => []) (fun _ => []) (fun _ _ => []) []
        [] [] (some { text := some "   ", num_recommendations := none })
      = ApiResponse.badRequest "Search text cannot be empty" := by
  have h := empty_text_rejected_C7 (fun _ => []) (fun _ => []) (fun _ => []) (fun _ _ => [])
    [] [] [] { text := some "   ", num_recommendations := none } "   " rfl (by decide)
  exact ⟨by decide, h.1, h.2⟩

/-- C8 counterexample: in "1995 2010年" the first plausible 4-digit match is
1995, but the code extracts 2010, because the `年`-suffixed pattern is tried
before the bare 4-digit pattern. -/
theorem year_extraction_C8_counterexample :
    firstPlausibleYear "1995 2010年".data = some 1995 ∧
    (extract_search_criteria "1995 2010年").year = some 2010 ∧
    (2010 : ℕ) ≠ 1995 := by
  refine ⟨by decide, by decide, by decide⟩

/-- C8 amended: the year is set by trying three patterns in order (4 digits
followed by `年`, 4 digits followed by `s`, bare 4 digits), taking the first
whose leftmost match lies in 1900-2030; in particular, when the text has no
`年`- or `s`-suffixed 4-digit group and the leftmost bare 4-digit match is in
range, that match is extracted. -/
theorem year_extraction_C8_amended (text : String) (y : ℕ)
    (h1 : searchNum4 (some '年') text.data = none)
    (h2 : searchNum4 (some 's') text.data = none)
    (h3 : searchNum4 none text.data = some y)
    (h4 : 1900 ≤ y) (h5 : y ≤ 2030) :
    (extract_search_criteria text).year = some y := by
  show extractYear text.data = some y
  unfold extractYear
  rw [h1, h2, h3]
  simp [checkYearRange, Option.orElse, h4, h5]

/-- Witness for C8 (amended): "from 1999" extracts 1999. -/
theorem year_extraction_C8_amended_witness :
    (extract_search_criteria "from 1999").year = some 1999 :=
  year_extraction_C8_amended "from 1999" 1999 (by decide) (by decide) (by decide)
    (by decide) (by decide)

/-- The spec's diversity scenario: 5 candidates all sharing one genre and one
director, strictly decreasing scores. -/
def c5_items : List ScoredItem :=
  [ { movie := { id := 1, title := "m1", genres := ["Drama"], director := "D" }
    , score := 5, match_reasons := [] }
  , { movie := { id := 2, title := "m2", genres := ["Drama"], director := "D" }
    , score := 4, match_reasons := [] }
  , { movie := { id := 3, title := "m3", genres := ["Drama"], director := "D" }
    , score := 3, match_reasons := [] }
  , { movie := { id := 4, title := "m4", genres := ["Drama"], director := "D" }
    , score := 2, match_reasons := [] }
  , { movie := { id := 5, title := "m5", genres := ["Drama"], director := "D" }
    , score := 1, match_reasons := [] } ]

/-- C5: the Diversity Selector never returns more than requested, and on the
spec's 5-candidate shared-genre/shared-director scenario the first three
returned are the top three by score, in score order (shown for N = 3 and
N = 4). -/
theorem diversity_filter_C5 :
    (∀ (movie_scores : List ScoredItem) (num_recommendations : ℕ),
        (apply_diversity_filter movie_scores num_recommendations).length
          ≤ num_recommendations) ∧
    (apply_diversity_filter c5_items 3).map (fun item => item.movie.id) = [1, 2, 3] ∧
    (apply_diversity_filter c5_items 4).map (fun item => item.movie.id) = [1, 2, 3, 4] := by
  refine ⟨?_, ?_, ?_⟩
  · intro movie_scores num_recommendations
    unfold apply_diversity_filter
    split_ifs with h
    · exact h
    · rw [List.length_take]
      exact min_le_left _ _
  · norm_num [apply_diversity_filter, diversityStep, setUpdate, c5_items,
      List.dedup_cons_of_not_mem]
  · norm_num [apply_diversity_filter, diversityStep, setUpdate, c5_items,
      List.dedup_cons_of_not_mem]

/-! ### Correctness of the seen-set de-duplication scan -/

theorem dedupGo_sublist : ∀ (seen : List ℤ) (l : List MovieData),
    (dedupGo seen l).Sublist l := by
  intro seen l
  induction l generalizing seen with
  | nil => exact List.Sublist.refl []
  | cons m rest ih =>
      by_cases h : m.id ∈ seen
      · rw [dedupGo, if_pos h]
        exact (ih seen).cons m
      · rw [dedupGo, if_neg h]
        exact (ih (m.id :: seen)).cons₂ m

theorem mem_dedupGo_not_seen : ∀ (seen : List ℤ) (l : List MovieData) (m : MovieData),
    m ∈ dedupGo seen l → m.id ∉ seen := by
  intro seen l
  induction l generalizing seen with
  | nil => intro m hm; cases hm
  | cons x rest ih =>
      intro m hm
      by_cases h : x.id ∈ seen
      · rw [dedupGo, if_pos h] at hm
        exact ih seen m hm
      · rw [dedupGo, if_neg h] at hm
        rcases List.mem_cons.mp hm with he | ht
        · exact he ▸ h
        · have := ih (x.id :: seen) m ht
          exact fun hc => this (List.mem_cons_of_mem _ hc)

theorem dedupGo_ids_nodup : ∀ (seen : List ℤ) (l : List MovieData),
    ((dedupGo seen l).map (fun m => m.id)).Nodup := by
  intro seen l
  induction l generalizing seen with
  | nil => exact List.nodup_nil
  | cons x rest ih =>
      by_cases h : x.id ∈ seen
      · rw [dedupGo, if_pos h]
        exact ih seen
      · rw [dedupGo, if_neg h]
        rw [List.map_cons, List.nodup_cons]
        constructor
        · intro hc
          obtain ⟨m, hm, he⟩ := List.mem_map.mp hc
          have := mem_dedupGo_not_seen (x.id :: seen) rest m hm
          exact this (he ▸ List.mem_cons_self _ _)
        · exact ih (x.id :: seen)

theorem dedupGo_covers : ∀ (seen : List ℤ) (l : List MovieData) (m : MovieData),
    m ∈ l → m.id ∈ seen ∨ m.id ∈ (dedupGo seen l).map (fun x => x.id) := by
  intro seen l
  induction l generalizing seen with
  | nil => intro m hm; cases hm
  | cons x rest ih =>
      intro m hm
      by_cases h : x.id ∈ seen
      · rw [dedupGo, if_pos h]
        rcases List.mem_cons.mp hm with he | ht
        · exact Or.inl (he ▸ h)
        · exact ih seen m ht
      · rw [dedupGo, if_neg h, List.map_cons]
        rcases List.mem_cons.mp hm with he | ht
        · exact Or.inr (he ▸ List.mem_cons_self _ _)
        · rcases ih (x.id :: seen) m ht with hs | hd
          · rcases List.mem_cons.mp hs with he2 | hin
            · exact Or.inr (he2 ▸ List.mem_cons_self _ _)
            · exact Or.inl hin
          · exact Or.inr (List.mem_cons_of_mem _ hd)

/-- Concrete oracle exhibiting the text-path de-duplication bug: the direct
search and the keyword search each return `[movie 1, movie 1, movie 2]`. -/
def c2_search : String → List MovieData :=
  fun _ =>
    [ { id := 1, title := "a", original_title := "a", overview := "", release_date := "",
        genres := [], vote_average := 0, vote_count := 0, popularity := 0, runtime := none }
    , { id := 1, title := "a", original_title := "a", overview := "", release_date := "",
        genres := [], vote_average := 0, vote_count := 0, popularity := 0, runtime := none }
    , { id := 2, title := "b", original_title := "b", overview := "", release_date := "",
        genres := [], vote_average := 0, vote_count := 0, popularity := 0, runtime := none } ]

/-- C2: the seen-set scan used on the mood-driven path de-duplicates
correctly (unique identifiers, first occurrence kept, first-seen order
preserved as a sublist covering every input identifier) — but on the
text-driven path the loop at lines 274-279 iterates over the empty
`unique_candidates` list instead of `candidates`, so the assembled batch
`[1, 1, 2, 1, 1, 2]` de-duplicates to `[]` rather than to `[1, 2]`. -/
theorem dedup_C2 :
    (∀ l : List MovieData,
        ((remove_duplicates l).map (fun m => m.id)).Nodup ∧
        (remove_duplicates l).Sublist l ∧
        ∀ m ∈ l, m.id ∈ (remove_duplicates l).map (fun x => x.id)) ∧
    (textCandidates c2_search (fun _ => []) (fun _ => []) (fun _ _ => []) "zzzz").map
        (fun m => m.id) = [1, 1, 2, 1, 1, 2] ∧
    textUniqueCandidates c2_search (fun _ => []) (fun _ => []) (fun _ _ => []) "zzzz" = [] ∧
    (remove_duplicates (textCandidates c2_search (fun _ => []) (fun _ => []) (fun _ _ => [])
        "zzzz")).map (fun m => m.id) = [1, 2] := by
  refine ⟨?_, by decide, rfl, by decide⟩
  intro l
  refine ⟨dedupGo_ids_nodup [] l, dedupGo_sublist [] l, ?_⟩
  intro m hm
  rcases dedupGo_covers [] l m hm with hs | hd
  · cases hs
  · exact hd

/-- Concrete oracle for the C1 exhibit: the direct free-text search finds one
movie. -/
def c1_search : String → List MovieData :=
  fun _ =>
    [ { id := 1, title := "a", original_title := "a", overview := "", release_date := "",
        genres := [], vote_average := 0, vote_count := 0, popularity := 0, runtime := none } ]

/-- C1: with an empty derived mood/emotion signal the text-driven path always
returns the empty recommendation list — for every oracle and text — even
though candidates were successfully collected (exhibited at "zzzz" with a
non-empty direct search result), because the de-duplication loop discards the
collected batch. -/
theorem text_path_loses_candidates_C1 :
    (∀ (search : String → List MovieData) (discoverGenre : String → List MovieData)
        (discoverYear : ℕ → List MovieData) (discoverRuntime : ℕ → ℕ → List MovieData)
        (popular : List MovieData) (search_text : String) (n : ℕ),
        recommend_by_text_search search discoverGenre discoverYear discoverRuntime popular
          [] [] search_text n = []) ∧
    textCandidates c1_search (fun _ => []) (fun _ => []) (fun _ _ => []) "zzzz" ≠ [] := by
  constructor
  · intro search discoverGenre discoverYear discoverRuntime popular search_text n
    simp [recommend_by_text_search, textScoredCandidates, textUniqueCandidates]
  · decide

/-! ### The mood-driven entry (C6) -/

instance : IsTotal RecommendationResult resultGe :=
  ⟨fun a b => le_total b.score a.score⟩

instance : IsTrans RecommendationResult resultGe :=
  ⟨fun _ _ _ hab hbc => le_trans hbc hab⟩

/-- C6: `recommend_by_mood_analysis` scores every de-duplicated candidate
with `0.4*moodScore + 0.4*emotionScore + 0.2*qualityScore` (the definition of
`scoreMovie` mapped over `remove_duplicates`), sorts stably descending and
returns the top n with no diversity filter; with n = 1 it returns exactly one
result whose score is the maximum combined score over the scored candidates. -/
theorem recommend_by_mood_C6 (search : String → List MovieData) (popular : List MovieData)
    (target_moods target_emotions : MoodDict)
    (h : moodScoredCandidates search popular target_moods target_emotions ≠ []) :
    (∀ n, (recommend_by_mood_analysis search popular target_moods target_emotions n).length
        = min n (moodScoredCandidates search popular target_moods target_emotions).length) ∧
    ∃ r, recommend_by_mood_analysis search popular target_moods target_emotions 1 = [r] ∧
      r ∈ moodScoredCandidates search popular target_moods target_emotions ∧
      ∀ c ∈ moodScoredCandidates search popular target_moods target_emotions,
        c.score ≤ r.score := by
  have hperm := List.perm_insertionSort resultGe
    (moodScoredCandidates search popular target_moods target_emotions)
  have hsorted := List.sorted_insertionSort resultGe
    (moodScoredCandidates search popular target_moods target_emotions)
  have hlen : ∀ n,
      (recommend_by_mood_analysis search popular target_moods target_emotions n).length
        = min n (moodScoredCandidates search popular target_moods target_emotions).length := by
    intro n
    show ((List.insertionSort resultGe
        (moodScoredCandidates search popular target_moods target_emotions)).take n).length = _
    rw [List.length_take, List.length_insertionSort]
  refine ⟨hlen, ?_⟩
  cases hs : List.insertionSort resultGe
      (moodScoredCandidates search popular target_moods target_emotions) with
  | nil =>
      exact absurd (List.Perm.eq_nil (hs ▸ hperm).symm) h
  | cons r rest =>
      refine ⟨r, ?_, ?_, ?_⟩
      · show (List.insertionSort resultGe
            (moodScoredCandidates search popular target_moods target_emotions)).take 1 = [r]
        rw [hs]
        rfl
      · exact hperm.mem_iff.mp (hs ▸ List.mem_cons_self r rest)
      · intro c hc
        have hc2 : c ∈ r :: rest := hs ▸ hperm.symm.mem_iff.mp hc
        rcases List.mem_cons.mp hc2 with he | ht
        · exact he ▸ le_rfl
        · exact List.rel_of_sorted_cons (hs ▸ hsorted) c ht

def c6_search : String → List MovieData := fun _ => []

def c6_popular : List MovieData :=
  [ { id := 6, title := "p", original_title := "p", overview := "", release_date := "",
      genres := [], vote_average := 6, vote_count := 10, popularity := 1, runtime := none } ]

/-- Witness for C6: empty searches, one popular fallback movie, n = 1. -/
theorem recommend_by_mood_C6_witness :
    (recommend_by_mood_analysis c6_search c6_popular [("action", 1)] [] 1).length = 1 := by
  have hbase : moodCandidatesWithFallback c6_search c6_popular [("action", 1)]
      = c6_popular := by
    norm_num [moodCandidatesWithFallback, moodCandidates, mood_to_search_terms, c6_search,
      c6_popular, List.insertionSort, List.orderedInsert]
  have hne : moodScoredCandidates c6_search c6_popular [("action", 1)] [] ≠ [] := by
    unfold moodScoredCandidates
    rw [hbase]
    simp [remove_duplicates, dedupGo, c6_popular]
  obtain ⟨_, r, hr, _, _⟩ := recommend_by_mood_C6 c6_search c6_popular [("action", 1)] [] hne
  rw [hr]
  rfl

end MoodFlix
